import Mathlib

/-!
Verification development for the agile-swarm SDK concurrency core.

This file gives a shallow embedding, in Lean, of the core runtime of the
repository: the event stream (`core/events.py`), the message router
(`core/router.py`), the per-agent actor runtime (`agents/base.py`), the team
orchestrator (`team.py`) and the event journal (`logging/event_logger.py`,
`logging/run_metadata.py`).  Python coroutines are embedded as pure state
transformers; the `asyncio.Queue`s are embedded as Lean lists with `put`
appending at the tail and `get` taking the head, so list order is FIFO
enqueue order.  Exceptions are embedded as functions returning the untouched
state together with an `Option` error, mirroring the fact that every raise in
the modelled code happens before any mutation of the state it reports on.
-/

namespace AgileSwarm

/-- Agent role identifiers, from `models/enums/agent_role.py`. -/
inductive AgentRole
  | em
  | planner
  | dev
  | seniorReviewer
  deriving DecidableEq, Repr

/-- The string value of each `AgentRole` enum member. -/
def AgentRole.value : AgentRole → String
  | .em => "engineering_manager"
  | .planner => "planner"
  | .dev => "developer"
  | .seniorReviewer => "senior_reviewer"

/-- Human role identifier, from `models/enums/human_role.py`. -/
inductive HumanRole
  | user
  deriving DecidableEq, Repr

/-- The string value of the `HumanRole` enum member. -/
def HumanRole.value : HumanRole → String
  | .user => "user"

/-- The union type `AgentRole | HumanRole` used for message sources and event
attribution in `models/message.py` and `models/event.py`. -/
inductive Identity
  | agent (r : AgentRole)
  | human (h : HumanRole)
  deriving DecidableEq, Repr

/-- String value of an identity (the `.value` accesses in the source). -/
def Identity.value : Identity → String
  | .agent r => r.value
  | .human h => h.value

/-- Message priority levels, from `models/enums/priority.py`. -/
inductive Priority
  | normal
  | interrupt
  deriving DecidableEq, Repr

/-- The string value of each `Priority` enum member. -/
def Priority.value : Priority → String
  | .normal => "normal"
  | .interrupt => "interrupt"

/-- Run status for executions, from `models/enums/run_status.py`. -/
inductive RunStatus
  | running
  | completed
  | error
  | cancelled
  deriving DecidableEq, Repr

/-- Modelled from the spec: the module `models/enums/event_type.py` is imported
by `models/enums/__init__.py` but its source file is absent; the spec fixes the
enumeration as run lifecycle (`RUN_STARTED`, `RUN_FINISHED`, `RUN_ERROR`), step
lifecycle (`STEP_STARTED`, `STEP_FINISHED`), content (`TEXT_MESSAGE_CONTENT`)
and tool lifecycle (`TOOL_CALL_START`, `TOOL_CALL_ARGS`, `TOOL_CALL_RESULT`). -/
inductive EventType
  | RUN_STARTED
  | RUN_FINISHED
  | RUN_ERROR
  | STEP_STARTED
  | STEP_FINISHED
  | TEXT_MESSAGE_CONTENT
  | TOOL_CALL_START
  | TOOL_CALL_ARGS
  | TOOL_CALL_RESULT
  deriving DecidableEq, Repr

/-- Event data payloads.  The typed payloads come from `models/event_data.py`
(the `action` literal of `MessageSentData` / `MessageReceivedData` is carried by
the constructor); `taskData` is the ad-hoc dict payload built in
`AgentTeam.drop_message`, and `info` is the ad-hoc message-dict payload built in
`BaseAgent.run_loop` (the summary string is carried verbatim except that the
decorative quote characters of the f-string are dropped). -/
inductive EventData
  | messageSent (to_ content priority : String)
  | messageReceived (from_ content priority : String)
  | agentStatus (status : String)
  | errorData (error : String)
  | taskData (task : String)
  | info (message : String)
  deriving DecidableEq, Repr

/-- An event, from `models/event.py`. -/
structure Event where
  type : EventType
  agent : Identity
  data : EventData
  deriving DecidableEq, Repr

/-- A message, from `models/message.py`. -/
structure Message where
  source : Identity
  target : AgentRole
  content : String
  priority : Priority
  deriving DecidableEq, Repr

/-- The event stream of `core/events.py`: an `asyncio.Queue[Event]` (embedded
as a FIFO list, head delivered first) plus a closed flag. -/
structure EventStream where
  queue : List Event
  closed : Bool
  deriving DecidableEq, Repr

/-- A freshly constructed `EventStream()`. -/
def EventStream.init : EventStream :=
  { queue := [], closed := false }

/-- `EventStream.emit`: append to the queue unless the stream is closed, in
which case the emit is a silent no-op. -/
def EventStream.emit (s : EventStream) (e : Event) : EventStream :=
  if s.closed then s else { s with queue := s.queue ++ [e] }

/-- `EventStream.close`: stop accepting new events. -/
def EventStream.close (s : EventStream) : EventStream :=
  { s with closed := true }

/-- The mutable state of one `BaseAgent` object (`agents/base.py`): its role,
its two mailbox queues (`inbox` and `interrupt_queue`) and its `_running`
flag. -/
structure AgentState where
  role : AgentRole
  inbox : List Message
  interruptQueue : List Message
  running : Bool
  deriving DecidableEq, Repr

/-- A freshly constructed agent of the given role. -/
def AgentState.init (role : AgentRole) : AgentState :=
  { role := role, inbox := [], interruptQueue := [], running := false }

/-- The shared mutable state the router operates on: the event stream, a heap
of agent objects addressed by an identifier, and the router's `_agents` dict
mapping a role to the registered agent object. -/
structure SystemState where
  stream : EventStream
  agents : Nat → AgentState
  registry : AgentRole → Option Nat

/-- `MessageRouter.register_agent`: record (or overwrite) the agent registered
for a role.  It touches nothing but the dict entry. -/
def registerAgent (st : SystemState) (role : AgentRole) (aid : Nat) : SystemState :=
  { st with registry := fun r => if r = role then some aid else st.registry r }

/-- The `TEXT_MESSAGE_CONTENT{action=sent}` audit event built in
`MessageRouter.route_message`, attributed to the message source. -/
def sentEvent (m : Message) : Event :=
  { type := EventType.TEXT_MESSAGE_CONTENT
    agent := m.source
    data := EventData.messageSent m.target.value m.content m.priority.value }

/-- The `TEXT_MESSAGE_CONTENT{action=received}` audit event built in
`MessageRouter.route_message`, attributed to the message target. -/
def receivedEvent (m : Message) : Event :=
  { type := EventType.TEXT_MESSAGE_CONTENT
    agent := Identity.agent m.target
    data := EventData.messageReceived m.source.value m.content m.priority.value }

/-- Enqueue a message into the target agent object's interrupt or normal queue
based on its priority (the if-else of `route_message`). -/
def pushMessage (a : AgentState) (m : Message) : AgentState :=
  if m.priority = Priority.interrupt then
    { a with interruptQueue := a.interruptQueue ++ [m] }
  else
    { a with inbox := a.inbox ++ [m] }

/-- The error raised by `route_message` for an unregistered target (the source
raises `ValueError("Agent ... not registered")`; the spec names it
`UnknownTargetError`). -/
inductive RouteError
  | unknownTarget (target : AgentRole)
  deriving DecidableEq, Repr

/-- One primitive state mutation performed by `route_message`, kept as an
explicit trace element so that the order of the emit and enqueue statements in
the source is itself a provable fact. -/
inductive RouteOp
  | emitEvent (e : Event)
  | enqueue (aid : Nat) (m : Message)
  deriving DecidableEq, Repr

/-- The sequence of mutations `route_message` performs, in source order: after
the registration check, emit the sent audit event, enqueue into the target
agent, emit the received audit event. -/
def routeOps (st : SystemState) (m : Message) : Except RouteError (List RouteOp) :=
  match st.registry m.target with
  | none => Except.error (RouteError.unknownTarget m.target)
  | some aid =>
      Except.ok [RouteOp.emitEvent (sentEvent m),
                 RouteOp.enqueue aid m,
                 RouteOp.emitEvent (receivedEvent m)]

/-- Apply one primitive mutation to the shared state. -/
def applyOp (st : SystemState) (op : RouteOp) : SystemState :=
  match op with
  | RouteOp.emitEvent e => { st with stream := st.stream.emit e }
  | RouteOp.enqueue aid m =>
      { st with agents := fun i => if i = aid then pushMessage (st.agents i) m else st.agents i }

/-- `MessageRouter.route_message`: raise before touching anything if the target
is unregistered (the state comes back unchanged with the error), otherwise run
the three mutations in order. -/
def routeMessageRun (st : SystemState) (m : Message) : SystemState × Option RouteError :=
  match routeOps st m with
  | Except.error e => (st, some e)
  | Except.ok ops => (ops.foldl applyOp st, none)

/-- `MessageRouter.send`: construct a `Message` and route it. -/
def send (st : SystemState) (source : Identity) (target : AgentRole)
    (content : String) (priority : Priority) : SystemState × Option RouteError :=
  routeMessageRun st { source := source, target := target, content := content, priority := priority }

/-- `BaseAgent._flush_queue`: pop messages off a queue until it is empty,
appending each to the batch, and return the batch (the queue is left empty). -/
def flushQueue : List Message → List Message
  | [] => []
  | m :: rest => m :: flushQueue rest

/-- One mailbox inspection of `BaseAgent.run_loop`: flush the interrupt queue
if it is non-empty, else flush the inbox if it is non-empty, else no batch
(the loop sleeps and re-checks). -/
def drainBatch (a : AgentState) : Option (List Message) × AgentState :=
  if a.interruptQueue ≠ [] then
    (some (flushQueue a.interruptQueue), { a with interruptQueue := [] })
  else if a.inbox ≠ [] then
    (some (flushQueue a.inbox), { a with inbox := [] })
  else
    (none, a)

/-- Successive batches `run_loop` takes from a mailbox when no new message
arrives in between: interrupt batch first (if any), then the normal batch
(if any). -/
def drainBatches (a : AgentState) : List (List Message) :=
  if a.interruptQueue ≠ [] then
    flushQueue a.interruptQueue :: drainBatches { a with interruptQueue := [] }
  else if a.inbox ≠ [] then
    flushQueue a.inbox :: drainBatches { a with inbox := [] }
  else
    []
termination_by a.interruptQueue.length + a.inbox.length
decreasing_by
  all_goals simp_all [List.length_pos_iff_ne_nil.symm]

/-- The `STEP_STARTED{status="Agent started"}` event emitted by
`BaseAgent.start`. -/
def agentStartedEvent (role : AgentRole) : Event :=
  { type := EventType.STEP_STARTED
    agent := Identity.agent role
    data := EventData.agentStatus "Agent started" }

/-- `BaseAgent.start` up to entering `run_loop`: set `_running` and emit the
startup event. -/
def agentStart (a : AgentState) (s : EventStream) : AgentState × EventStream :=
  ({ a with running := true }, s.emit (agentStartedEvent a.role))

/-- The "Received N message(s)" informational event emitted by `run_loop`
before a non-empty batch is processed. -/
def batchInfoEvent (role : AgentRole) (n : Nat) : Event :=
  { type := EventType.TEXT_MESSAGE_CONTENT
    agent := Identity.agent role
    data := EventData.info ("📨 Received " ++ toString n ++ " message(s)") }

/-- The per-message summary event emitted by `run_loop` for the i-th message of
a batch (1-based, as in the source's `enumerate(messages, 1)`). -/
def messageSummaryEvent (role : AgentRole) (i : Nat) (m : Message) : Event :=
  { type := EventType.TEXT_MESSAGE_CONTENT
    agent := Identity.agent role
    data := EventData.info ("  Message " ++ toString i ++ ": from=" ++ m.source.value
              ++ ", content=" ++ m.content ++ ", priority=" ++ m.priority.value) }

/-- Emit the per-message summary events for a batch, in batch order. -/
def emitMessageSummaries (s : EventStream) (role : AgentRole) (batch : List Message) : EventStream :=
  (batch.enumFrom 1).foldl (fun st p => st.emit (messageSummaryEvent role p.1 p.2)) s

/-- The `RUN_ERROR` event emitted by `run_loop` when `process_messages`
raises. -/
def runErrorEvent (role : AgentRole) (err : String) : Event :=
  { type := EventType.RUN_ERROR
    agent := Identity.agent role
    data := EventData.errorData err }

/-- The `STEP_FINISHED{status="Agent cancelled"}` event emitted by `run_loop`
when an `asyncio.CancelledError` reaches it. -/
def agentCancelledEvent (role : AgentRole) : Event :=
  { type := EventType.STEP_FINISHED
    agent := Identity.agent role
    data := EventData.agentStatus "Agent cancelled" }

/-- External happenings one iteration of `run_loop` can observe: `stop` is a
`BaseAgent.stop()` call clearing the running flag before the loop re-checks it,
`cancel` is an `asyncio.CancelledError` delivered to the loop, and
`proceed emits err` is an ordinary iteration in which the opaque
`process_messages` callback (if a batch is handed to it) emits `emits` to the
stream and then raises `err` if that is `some`. -/
inductive LoopInput
  | stop
  | cancel
  | proceed (emits : List Event) (err : Option String)

/-- How a completed `run_loop` exited: the while-condition became false, the
`except Exception` arm broke out, or the `except CancelledError` arm
re-raised. -/
inductive LoopExit
  | stopped
  | errored
  | cancelled
  deriving DecidableEq, Repr

/-- `BaseAgent.run_loop`, driven by a finite schedule of external happenings.
Returns the agent state, the stream, and `some exit` when the loop completed
(through its `finally`, which clears `_running`), or `none` when the schedule
ran out while the loop was still running. -/
def runLoopAux : AgentState → EventStream → List LoopInput →
    AgentState × EventStream × Option LoopExit
  | a, s, [] =>
    if a.running = false then
      ({ a with running := false }, s, some LoopExit.stopped)
    else
      (a, s, none)
  | a, s, input :: rest =>
    if a.running = false then
      ({ a with running := false }, s, some LoopExit.stopped)
    else
      match input with
      | LoopInput.stop => runLoopAux { a with running := false } s rest
      | LoopInput.cancel =>
          ({ a with running := false }, s.emit (agentCancelledEvent a.role),
            some LoopExit.cancelled)
      | LoopInput.proceed emits err =>
          match drainBatch a with
          | (none, a1) => runLoopAux a1 s rest
          | (some batch, a1) =>
              let s1 := s.emit (batchInfoEvent a.role batch.length)
              let s2 := emitMessageSummaries s1 a.role batch
              let s3 := emits.foldl EventStream.emit s2
              match err with
              | none => runLoopAux a1 s3 rest
              | some e =>
                  ({ a1 with running := false }, s3.emit (runErrorEvent a.role e),
                    some LoopExit.errored)

/-- `BaseAgent.stop`: clear the running flag (task cancellation is delivered to
the loop as a `LoopInput.cancel`). -/
def agentStop (a : AgentState) : AgentState :=
  { a with running := false }

/-- Whether direct iteration over the stream has ended, or is still polling
the queue with its short timeout. -/
inductive IterOutcome
  | terminated
  | polling
  deriving DecidableEq, Repr

/-- Direct iteration over an `EventStream` (its `__aiter__`), run against the
current queue contents with no concurrent producer: deliver events from the
head of the queue one at a time; stop right after delivering a `RUN_FINISHED`
event; when the poll times out with nothing queued, stop if the stream is
closed and the queue is empty, else keep polling. -/
def drainIterAux (closed : Bool) : List Event → List Event × IterOutcome
  | [] => ([], if closed then IterOutcome.terminated else IterOutcome.polling)
  | e :: rest =>
      if e.type = EventType.RUN_FINISHED then
        ([e], IterOutcome.terminated)
      else
        let p := drainIterAux closed rest
        (e :: p.1, p.2)

/-- Direct iteration of the whole current queue of a stream. -/
def drainIter (s : EventStream) : List Event × IterOutcome :=
  drainIterAux s.closed s.queue

/-- The journal summary record (`RunMetadata` in `logging/run_metadata.py` as
finalized by `EventLogger.finalize`).  The wall-clock fields (`start_time`,
`end_time`, `duration_seconds`) are real-time data and are not modelled;
`finalizeCount` counts how many times `EventLogger.finalize` has rewritten the
record. -/
structure JournalState where
  status : RunStatus
  errorField : Option String
  finalizeCount : Nat
  deriving DecidableEq, Repr

/-- A freshly created `RunMetadata`: status `RUNNING`, no error. -/
def JournalState.init : JournalState :=
  { status := RunStatus.running, errorField := none, finalizeCount := 0 }

/-- `EventLogger.finalize`: rewrite the summary record with the given terminal
status and error. -/
def finalizeJournal (j : JournalState) (status : RunStatus) (error : Option String) :
    JournalState :=
  { status := status, errorField := error, finalizeCount := j.finalizeCount + 1 }

/-- Errors `AgentTeam.start` / `AgentTeam.drop_message` raise synchronously:
`alreadyStarted` and `notStarted` are the two `RuntimeError`s (the spec's
`AlreadyStartedError` / `NotStartedError`), `missingEntryAgent` is the lookup
failure of `self.agents[AgentRole.EM]`, and `routeError` wraps an error
propagated from `route_message`. -/
inductive TeamError
  | alreadyStarted
  | notStarted
  | missingEntryAgent
  | routeError (e : RouteError)
  deriving DecidableEq, Repr

/-- The session state of an `AgentTeam` (`team.py`): the shared system state,
the team's own `agents` dict (role to agent object), the `_started` and
`_first_message_sent` flags, the optional `EventLogger` summary record, and the
`_had_error` flag. -/
structure TeamState where
  sys : SystemState
  teamAgents : List (AgentRole × Nat)
  started : Bool
  firstMessageSent : Bool
  journal : Option JournalState
  hadError : Bool

/-- Dictionary lookup in the team's `agents` dict. -/
def lookupRole : List (AgentRole × Nat) → AgentRole → Option Nat
  | [], _ => none
  | (r, i) :: rest, q => if q = r then some i else lookupRole rest q

/-- `AgentTeam.start`: raise `AlreadyStartedError` if already started;
otherwise, if the stream was closed by an earlier `stop()`, rebuild the stream
and the router and re-register the team's agents, then spawn the agent loops
(the spawned tasks only run when the scheduler reaches them, so their effects
are modelled separately by `agentStart` / `runLoopAux`) and mark the session
started. -/
def teamStartRun (ts : TeamState) : TeamState × Option TeamError :=
  if ts.started then
    (ts, some TeamError.alreadyStarted)
  else
    let sys :=
      if ts.sys.stream.closed then
        { ts.sys with stream := EventStream.init,
                      registry := fun r => lookupRole ts.teamAgents r }
      else ts.sys
    ({ ts with sys := sys, started := true }, none)

/-- The `RUN_STARTED{task=content}` event emitted by `AgentTeam.drop_message`
on the first submission of a session (attributed to `AgentRole.EM`). -/
def runStartedEvent (content : String) : Event :=
  { type := EventType.RUN_STARTED
    agent := Identity.agent AgentRole.em
    data := EventData.taskData content }

/-- `AgentTeam.drop_message`: raise `NotStartedError` if the session is not
started; on the first submission emit `RUN_STARTED{task=content}` and latch
`_first_message_sent`; then deliver the content through
`agents[EM].drop_in_inbox`, i.e. `router.send(source=USER, target=agent.role,
content)` at normal priority. -/
def dropMessageRun (ts : TeamState) (content : String) : TeamState × Option TeamError :=
  if ts.started = false then
    (ts, some TeamError.notStarted)
  else
    let ts1 :=
      if ts.firstMessageSent = false then
        { ts with
            sys := { ts.sys with stream := ts.sys.stream.emit (runStartedEvent content) },
            firstMessageSent := true }
      else ts
    match lookupRole ts1.teamAgents AgentRole.em with
    | none => (ts1, some TeamError.missingEntryAgent)
    | some aid =>
        match send ts1.sys (Identity.human HumanRole.user) ((ts1.sys.agents aid).role)
            content Priority.normal with
        | (sys2, none) => ({ ts1 with sys := sys2 }, none)
        | (_, some e) => (ts1, some (TeamError.routeError e))

/-- `AgentTeam.stop`: a no-op when not started; otherwise finalize the journal
(`ERROR` if a `RUN_ERROR` was observed, else `COMPLETED`), then tear down:
close the stream, call `stop()` on every team agent, and reset the session
flags so the team can be started again. -/
def teamStop (ts : TeamState) : TeamState :=
  if ts.started = false then
    ts
  else
    let journal1 := ts.journal.map fun j =>
      finalizeJournal j (if ts.hadError then RunStatus.error else RunStatus.completed) none
    let sys1 :=
      { ts.sys with
          stream := ts.sys.stream.close,
          agents := fun i =>
            if (ts.teamAgents.map Prod.snd).contains i then agentStop (ts.sys.agents i)
            else ts.sys.agents i }
    { ts with sys := sys1, journal := journal1, started := false, firstMessageSent := false }

/-- Number of `RUN_STARTED` events in a list of events. -/
def countRunStarted (es : List Event) : Nat :=
  es.countP fun e => decide (e.type = EventType.RUN_STARTED)

/-- A sequence of `drop_message` calls, each continuing from the session state
the previous one left behind (raised errors leave the state as the call left
it, exactly as in the source). -/
def dropMany (ts : TeamState) (cs : List String) : TeamState :=
  cs.foldl (fun t c => (dropMessageRun t c).1) ts

/-- The `RUN_FINISHED{status="ok"}` event the scenario's processing callback
emits. -/
def runFinishedEvent : Event :=
  { type := EventType.RUN_FINISHED
    agent := Identity.agent AgentRole.em
    data := EventData.agentStatus "ok" }

/-- The spec's one-actor scenario session: a team whose only actor is the
entry actor, registered with the router under id 0, with a fresh open
stream. -/
def scenarioTeam : TeamState :=
  { sys := { stream := EventStream.init,
             agents := fun _ => AgentState.init AgentRole.em,
             registry := fun r => if r = AgentRole.em then some 0 else none },
    teamAgents := [(AgentRole.em, 0)],
    started := false,
    firstMessageSent := false,
    journal := none,
    hadError := false }

/-- The stream contents of the scenario run under the cooperative schedule of
the source runtime: `start()` and `drop_message("hello")` run to completion
without suspending (their awaits never block), then the consumer's first timed
poll suspends and the spawned actor task runs until its first real suspension
point — emitting its startup event, draining the one queued message and running
the callback, which emits `RUN_FINISHED`. -/
def scenarioStream : EventStream :=
  let t1 := (teamStartRun scenarioTeam).1
  let t2 := (dropMessageRun t1 "hello").1
  let p := agentStart (t2.sys.agents 0) t2.sys.stream
  (runLoopAux p.1 p.2 [LoopInput.proceed [runFinishedEvent] none]).2.1

/-- The events a direct iteration of the stream observes in the scenario. -/
def scenarioObserved : List Event :=
  (drainIter scenarioStream).1

/-- The normal-priority message from the human identity to the entry actor
that `drop_message(content)` sends. -/
def humanMessage (content : String) : Message :=
  { source := Identity.human HumanRole.user
    target := AgentRole.em
    content := content
    priority := Priority.normal }

/-- Concrete system fixture: one EM agent registered under id 0, fresh open
stream. -/
def witSys : SystemState :=
  { stream := EventStream.init
    agents := fun _ => AgentState.init AgentRole.em
    registry := fun r => if r = AgentRole.em then some 0 else none }

/-- Concrete team fixture around `witSys`, not yet started. -/
def witTeam : TeamState :=
  { sys := witSys
    teamAgents := [(AgentRole.em, 0)]
    started := false
    firstMessageSent := false
    journal := some JournalState.init
    hadError := false }

/-- The fixture team in its started state. -/
def witTeamStarted : TeamState :=
  { witTeam with started := true }

/-- A concrete message to a registered role. -/
def witMsg : Message := humanMessage "x"

/-- A concrete message to a role that `witSys` has not registered. -/
def witMsgUnknown : Message :=
  { source := Identity.human HumanRole.user
    target := AgentRole.planner
    content := "x"
    priority := Priority.normal }

/- ## Theorems -/

/-- `_flush_queue` returns the whole queue in enqueue (FIFO) order. -/
theorem flushQueue_eq (q : List Message) : flushQueue q = q := by
  induction q with
  | nil => rfl
  | cons m rest ih => simp [flushQueue, ih]

/-- C1: for every `route_message` whose target role is registered, exactly two
`TEXT_MESSAGE_CONTENT` audit events are emitted: first the `action=sent` event
attributed to the source — emitted, per the operation trace, before the message
is enqueued into the target's queue — then the `action=received` event
attributed to the target; both carry the routed message's content and priority,
and the sent event precedes the received event in stream order. -/
theorem route_message_audit_events (st : SystemState) (m : Message) (aid : Nat)
    (hreg : st.registry m.target = some aid) (hopen : st.stream.closed = false) :
    routeOps st m = Except.ok [RouteOp.emitEvent (sentEvent m), RouteOp.enqueue aid m,
      RouteOp.emitEvent (receivedEvent m)] ∧
    (routeMessageRun st m).2 = none ∧
    (routeMessageRun st m).1.stream.queue
      = st.stream.queue ++ [sentEvent m, receivedEvent m] ∧
    (sentEvent m).type = EventType.TEXT_MESSAGE_CONTENT ∧
    (sentEvent m).agent = m.source ∧
    (receivedEvent m).type = EventType.TEXT_MESSAGE_CONTENT ∧
    (receivedEvent m).agent = Identity.agent m.target ∧
    (sentEvent m).data = EventData.messageSent m.target.value m.content m.priority.value ∧
    (receivedEvent m).data = EventData.messageReceived m.source.value m.content m.priority.value := by
  refine ⟨by simp [routeOps, hreg], ?_, ?_, rfl, rfl, rfl, rfl, rfl, rfl⟩
  · simp [routeMessageRun, routeOps, hreg]
  · simp [routeMessageRun, routeOps, hreg, applyOp, EventStream.emit, hopen]

/-- Closed instance of `route_message_audit_events` at a concrete state. -/
theorem route_message_audit_events_witness :
    (witSys.registry witMsg.target = some 0 ∧ witSys.stream.closed = false) ∧
    (routeMessageRun witSys witMsg).1.stream.queue
      = witSys.stream.queue ++ [sentEvent witMsg, receivedEvent witMsg] :=
  ⟨⟨rfl, rfl⟩, (route_message_audit_events witSys witMsg 0 rfl rfl).2.2.1⟩

/-- C3: routing to an unregistered target raises the unknown-target error and
is atomic — the state (stream and every mailbox) comes back unchanged — and the
same holds for `send`, which merely wraps the message. -/
theorem route_message_unknown_target_atomic (st : SystemState) (m : Message)
    (h : st.registry m.target = none) :
    routeMessageRun st m = (st, some (RouteError.unknownTarget m.target)) ∧
    send st m.source m.target m.content m.priority
      = (st, some (RouteError.unknownTarget m.target)) := by
  constructor
  · simp [routeMessageRun, routeOps, h]
  · simp [send, routeMessageRun, routeOps, h]

/-- Closed instance of `route_message_unknown_target_atomic` at a concrete
state and unregistered role. -/
theorem route_message_unknown_target_atomic_witness :
    witSys.registry witMsgUnknown.target = none ∧
    routeMessageRun witSys witMsgUnknown
      = (witSys, some (RouteError.unknownTarget witMsgUnknown.target)) :=
  ⟨rfl, (route_message_unknown_target_atomic witSys witMsgUnknown rfl).1⟩

/-- C9: registering a second agent under an already-registered role silently
replaces the previous registration — `register_agent` is total, emits nothing
and touches only the dict entry — and every subsequent `route_message` for that
role enqueues only into the most recently registered agent's queues. -/
theorem register_agent_replaces (st : SystemState) (r : AgentRole) (a1 a2 : Nat) (m : Message)
    (hm : m.target = r) :
    (registerAgent (registerAgent st r a1) r a2).stream = st.stream ∧
    (registerAgent (registerAgent st r a1) r a2).agents = st.agents ∧
    (registerAgent (registerAgent st r a1) r a2).registry r = some a2 ∧
    (routeMessageRun (registerAgent (registerAgent st r a1) r a2) m).2 = none ∧
    (routeMessageRun (registerAgent (registerAgent st r a1) r a2) m).1.agents a2
      = pushMessage (st.agents a2) m ∧
    (∀ i, i ≠ a2 →
      (routeMessageRun (registerAgent (registerAgent st r a1) r a2) m).1.agents i
        = st.agents i) := by
  refine ⟨rfl, rfl, by simp [registerAgent], ?_, ?_, ?_⟩
  · simp [routeMessageRun, routeOps, registerAgent, hm]
  · simp [routeMessageRun, routeOps, registerAgent, hm, applyOp]
  · intro i hi
    simp [routeMessageRun, routeOps, registerAgent, hm, applyOp, hi]

/-- Closed instance of `register_agent_replaces`: re-register the EM role under
id 1 and route to it. -/
theorem register_agent_replaces_witness :
    witMsg.target = AgentRole.em ∧
    (routeMessageRun (registerAgent (registerAgent witSys AgentRole.em 0) AgentRole.em 1)
        witMsg).1.agents 1
      = pushMessage (witSys.agents 1) witMsg :=
  ⟨rfl, (register_agent_replaces witSys AgentRole.em 0 1 witMsg rfl).2.2.2.2.1⟩

/-- Unfolding lemma: with a non-empty interrupt queue the iteration takes it
whole as the batch. -/
theorem drainBatches_interrupt (a : AgentState) (hi : a.interruptQueue ≠ []) :
    drainBatches a = a.interruptQueue :: drainBatches { a with interruptQueue := [] } := by
  rw [drainBatches, if_pos hi, flushQueue_eq]

/-- Unfolding lemma: with an empty interrupt queue and a non-empty inbox the
iteration takes the inbox whole as the batch. -/
theorem drainBatches_inbox (a : AgentState) (hi : a.interruptQueue = []) (hn : a.inbox ≠ []) :
    drainBatches a = a.inbox :: drainBatches { a with inbox := [] } := by
  rw [drainBatches, if_neg (by simp [hi]), if_pos hn, flushQueue_eq]

/-- Unfolding lemma: with both queues empty there is no batch. -/
theorem drainBatches_nil (a : AgentState) (hi : a.interruptQueue = []) (hn : a.inbox = []) :
    drainBatches a = [] := by
  rw [drainBatches, if_neg (by simp [hi]), if_neg (by simp [hn])]

/-- With both queues non-empty, the loop takes the interrupt queue as the
first batch and the inbox as the second. -/
theorem drainBatches_spec (a : AgentState) (hi : a.interruptQueue ≠ []) (hn : a.inbox ≠ []) :
    drainBatches a = [a.interruptQueue, a.inbox] := by
  rw [drainBatches_interrupt a hi,
    drainBatches_inbox { a with interruptQueue := [] } rfl hn]
  simp [drainBatches_nil]

/-- C2: within each queue, messages reach a batch in enqueue (FIFO) order —
`_flush_queue` returns the queue verbatim — and in each `run_loop` iteration a
non-empty interrupt queue is drained fully before the inbox is inspected, so an
interrupt message and a normal message both pending before the next drain end
up in batches with a strictly smaller index for the interrupt message. -/
theorem mailbox_fifo_interrupt_first (a : AgentState) (mi mn : Message)
    (hi : mi ∈ a.interruptQueue) (hn : mn ∈ a.inbox) :
    flushQueue a.interruptQueue = a.interruptQueue ∧
    flushQueue a.inbox = a.inbox ∧
    drainBatches a = [a.interruptQueue, a.inbox] ∧
    ∃ i j : Nat, i < j ∧
      (drainBatches a).getD i [] = a.interruptQueue ∧
      (drainBatches a).getD j [] = a.inbox ∧
      mi ∈ (drainBatches a).getD i [] ∧
      mn ∈ (drainBatches a).getD j [] := by
  have hi' : a.interruptQueue ≠ [] := List.ne_nil_of_mem hi
  have hn' : a.inbox ≠ [] := List.ne_nil_of_mem hn
  have hb := drainBatches_spec a hi' hn'
  exact ⟨flushQueue_eq _, flushQueue_eq _, hb,
    0, 1, Nat.zero_lt_one, by simp [hb], by simp [hb], by simp [hb, hi], by simp [hb, hn]⟩

/-- Concrete mailbox fixture holding one normal and one interrupt message. -/
def witMailbox : AgentState :=
  { role := AgentRole.em
    inbox := [witMsg]
    interruptQueue := [witMsgUnknown]
    running := true }

/-- Concrete mailbox fixture holding one normal message only, running. -/
def witMailbox2 : AgentState :=
  { role := AgentRole.em
    inbox := [witMsg]
    interruptQueue := []
    running := true }

/-- Closed instance of `mailbox_fifo_interrupt_first` on `witMailbox`. -/
theorem mailbox_fifo_interrupt_first_witness :
    witMsg ∈ witMailbox.inbox ∧
    drainBatches witMailbox = [[witMsgUnknown], [witMsg]] :=
  ⟨List.mem_singleton.mpr rfl,
    (mailbox_fifo_interrupt_first witMailbox witMsgUnknown witMsg
      (List.mem_singleton.mpr rfl) (List.mem_singleton.mpr rfl)).2.2.1⟩

/-- Direct iteration yields a prefix of the queue (events come out one at a
time, oldest first). -/
theorem drainIterAux_front (c : Bool) (q : List Event) :
    (drainIterAux c q).1 <+: q := by
  induction q with
  | nil => simp [drainIterAux]
  | cons e rest ih =>
      by_cases he : e.type = EventType.RUN_FINISHED
      · simp [drainIterAux, he]
      · simpa [drainIterAux, he] using ih

/-- No event yielded before the last one is a `RUN_FINISHED` event: iteration
stops immediately after yielding one. -/
theorem drainIterAux_dropLast (c : Bool) (q : List Event) :
    ∀ e ∈ (drainIterAux c q).1.dropLast, e.type ≠ EventType.RUN_FINISHED := by
  induction q with
  | nil => simp [drainIterAux]
  | cons e rest ih =>
      by_cases he : e.type = EventType.RUN_FINISHED
      · simp [drainIterAux, he]
      · intro x hx
        have hx' : x ∈ (e :: (drainIterAux c rest).1).dropLast := by
          simpa [drainIterAux, he] using hx
        rcases hrest : (drainIterAux c rest).1 with _ | ⟨y, ys⟩
        · rw [hrest] at hx'
          simp at hx'
        · rw [hrest, List.dropLast_cons₂, List.mem_cons] at hx'
          rcases hx' with hx' | hx'
          · simpa [hx'] using he
          · exact ih x (by simpa [hrest] using hx')

/-- If a `RUN_FINISHED` event is queued, iteration terminates and the last
yielded event is a `RUN_FINISHED` event. -/
theorem drainIterAux_finished (c : Bool) (q : List Event)
    (h : ∃ e ∈ q, e.type = EventType.RUN_FINISHED) :
    (drainIterAux c q).2 = IterOutcome.terminated ∧
    ∃ e, (drainIterAux c q).1.getLast? = some e ∧ e.type = EventType.RUN_FINISHED := by
  induction q with
  | nil => simp at h
  | cons e rest ih =>
      by_cases he : e.type = EventType.RUN_FINISHED
      · exact ⟨by simp [drainIterAux, he], e, by simp [drainIterAux, he], he⟩
      · have h' : ∃ x ∈ rest, x.type = EventType.RUN_FINISHED := by
          rcases h with ⟨x, hx, hxt⟩
          rcases List.mem_cons.mp hx with hx | hx
          · exact absurd (hx ▸ hxt) he
          · exact ⟨x, hx, hxt⟩
        rcases ih h' with ⟨h1, x, h2, h3⟩
        refine ⟨by simpa [drainIterAux, he] using h1, x, ?_, h3⟩
        have hgoal : (e :: (drainIterAux c rest).1).getLast? = some x := by
          rcases hrest : (drainIterAux c rest).1 with _ | ⟨y, ys⟩
          · rw [hrest] at h2
            simp at h2
          · rw [hrest] at h2
            rw [List.getLast?_cons_cons]
            exact h2
        simpa [drainIterAux, he] using hgoal

/-- If no `RUN_FINISHED` event is queued, iteration yields the whole queue and
then terminates exactly when the stream is closed (with the queue now empty);
otherwise it keeps polling. -/
theorem drainIterAux_no_finished (c : Bool) (q : List Event)
    (h : ∀ e ∈ q, e.type ≠ EventType.RUN_FINISHED) :
    (drainIterAux c q).1 = q ∧
    ((drainIterAux c q).2 = IterOutcome.terminated ↔ c = true) := by
  induction q with
  | nil =>
      cases c <;> simp [drainIterAux]
  | cons e rest ih =>
      have he : e.type ≠ EventType.RUN_FINISHED := h e (List.mem_cons_self e rest)
      have h' : ∀ x ∈ rest, x.type ≠ EventType.RUN_FINISHED :=
        fun x hx => h x (List.mem_cons_of_mem e hx)
      rcases ih h' with ⟨h1, h2⟩
      exact ⟨by simp [drainIterAux, he, h1], by simpa [drainIterAux, he] using h2⟩

/-- C6: direct iteration over an `EventStream` yields queued events one at a
time in emission (FIFO) order — the yielded list is a prefix of the queue and
no non-final yielded event is `RUN_FINISHED` — terminating immediately after a
`RUN_FINISHED` event; and when a poll times out with nothing queued, the
iteration terminates exactly when the stream is closed (the queue having been
fully drained), otherwise it keeps polling. -/
theorem event_stream_iteration_spec (s : EventStream) :
    (drainIter s).1 <+: s.queue ∧
    (∀ e ∈ (drainIter s).1.dropLast, e.type ≠ EventType.RUN_FINISHED) ∧
    ((∃ e ∈ s.queue, e.type = EventType.RUN_FINISHED) →
      (drainIter s).2 = IterOutcome.terminated ∧
      ∃ e, (drainIter s).1.getLast? = some e ∧ e.type = EventType.RUN_FINISHED) ∧
    ((∀ e ∈ s.queue, e.type ≠ EventType.RUN_FINISHED) →
      (drainIter s).1 = s.queue ∧
      ((drainIter s).2 = IterOutcome.terminated ↔ s.closed = true)) :=
  ⟨drainIterAux_front s.closed s.queue,
   drainIterAux_dropLast s.closed s.queue,
   fun h => drainIterAux_finished s.closed s.queue h,
   fun h => drainIterAux_no_finished s.closed s.queue h⟩

/-- Closed instance of `event_stream_iteration_spec` on a closed stream whose
queue holds one non-terminal event. -/
theorem event_stream_iteration_spec_witness :
    (drainIter { queue := [agentStartedEvent AgentRole.em], closed := true }).1
      = [agentStartedEvent AgentRole.em] ∧
    (drainIter { queue := [agentStartedEvent AgentRole.em], closed := true }).2
      = IterOutcome.terminated :=
  ⟨((event_stream_iteration_spec
      { queue := [agentStartedEvent AgentRole.em], closed := true }).2.2.2
      (by intro e he; simp at he; simp [he, agentStartedEvent])).1,
   ((event_stream_iteration_spec
      { queue := [agentStartedEvent AgentRole.em], closed := true }).2.2.2
      (by intro e he; simp at he; simp [he, agentStartedEvent])).2.mpr rfl⟩

/-- C5 counterexample: in the one-actor scenario — `start()`, then
`submit("hello")`, with a processing callback that immediately emits
`RUN_FINISHED` — the consumer does not observe exactly
`[RUN_STARTED, TEXT_MESSAGE_CONTENT, TEXT_MESSAGE_CONTENT, RUN_FINISHED]`:
the spawned actor also emits its `STEP_STARTED` startup event and two
informational `TEXT_MESSAGE_CONTENT` batch events before `RUN_FINISHED`. -/
theorem scenario_event_order_counterexample :
    scenarioObserved.map Event.type ≠
      [EventType.RUN_STARTED, EventType.TEXT_MESSAGE_CONTENT,
       EventType.TEXT_MESSAGE_CONTENT, EventType.RUN_FINISHED] := by
  decide

/-- C5 amended: in the one-actor scenario the observed event types are, in
order, `RUN_STARTED`, the sent and received `TEXT_MESSAGE_CONTENT` audit
events, the actor's `STEP_STARTED` startup event, two informational
`TEXT_MESSAGE_CONTENT` batch events, and `RUN_FINISHED`; the first observed
event is `RUN_STARTED`, the last is `RUN_FINISHED`, `RUN_STARTED` is observed
exactly once, and the iteration terminates at `RUN_FINISHED`. -/
theorem scenario_event_order_amended :
    scenarioObserved.map Event.type =
      [EventType.RUN_STARTED, EventType.TEXT_MESSAGE_CONTENT,
       EventType.TEXT_MESSAGE_CONTENT, EventType.STEP_STARTED,
       EventType.TEXT_MESSAGE_CONTENT, EventType.TEXT_MESSAGE_CONTENT,
       EventType.RUN_FINISHED] ∧
    (scenarioObserved.head?.map Event.type = some EventType.RUN_STARTED) ∧
    (scenarioObserved.getLast?.map Event.type = some EventType.RUN_FINISHED) ∧
    countRunStarted scenarioObserved = 1 ∧
    (drainIter scenarioStream).2 = IterOutcome.terminated := by
  refine ⟨by decide, by decide, by decide, by decide, by decide⟩

/-- C10: whenever `run_loop` completes — the running flag was cleared, the
exception arm broke out after emitting `RUN_ERROR`, or a cancellation was
re-raised after emitting `STEP_FINISHED` — the `finally` clause has cleared the
agent's running flag. -/
theorem run_loop_clears_running (inputs : List LoopInput) (a : AgentState) (s : EventStream)
    (h : (runLoopAux a s inputs).2.2 ≠ none) :
    (runLoopAux a s inputs).1.running = false := by
  induction inputs generalizing a s with
  | nil =>
      by_cases hr : a.running = false
      · simp [runLoopAux, hr]
      · simp [runLoopAux, hr] at h
  | cons input rest ih =>
      by_cases hr : a.running = false
      · simp [runLoopAux, hr]
      · cases input with
        | stop =>
            have hred : runLoopAux a s (LoopInput.stop :: rest)
                = runLoopAux { a with running := false } s rest := by
              simp [runLoopAux, hr]
            rw [hred] at h ⊢
            exact ih _ _ h
        | cancel =>
            simp [runLoopAux, hr]
        | proceed emits err =>
            rcases hdb : drainBatch a with ⟨b, a1⟩
            cases b with
            | none =>
                have hred : runLoopAux a s (LoopInput.proceed emits err :: rest)
                    = runLoopAux a1 s rest := by
                  simp [runLoopAux, hr, hdb]
                rw [hred] at h ⊢
                exact ih _ _ h
            | some batch =>
                cases err with
                | none =>
                    have hred : runLoopAux a s (LoopInput.proceed emits none :: rest)
                        = runLoopAux a1
                            (emits.foldl EventStream.emit
                              (emitMessageSummaries
                                (s.emit (batchInfoEvent a.role batch.length)) a.role batch))
                            rest := by
                      simp [runLoopAux, hr, hdb]
                    rw [hred] at h ⊢
                    exact ih _ _ h
                | some e =>
                    simp [runLoopAux, hr, hdb]

/-- Closed instance of `run_loop_clears_running`: a running agent receiving a
cancellation finishes with the running flag cleared. -/
theorem run_loop_clears_running_witness :
    (runLoopAux witMailbox EventStream.init [LoopInput.cancel]).2.2 ≠ none ∧
    (runLoopAux witMailbox EventStream.init [LoopInput.cancel]).1.running = false :=
  ⟨by decide,
   run_loop_clears_running [LoopInput.cancel] witMailbox EventStream.init (by decide)⟩

/-- Emitting never changes the closed flag. -/
theorem emit_closed (s : EventStream) (e : Event) : (s.emit e).closed = s.closed := by
  by_cases h : s.closed <;> simp [EventStream.emit, h]

/-- An emit on an open stream appends the event to the queue. -/
theorem emit_queue_open (s : EventStream) (e : Event) (h : s.closed = false) :
    (s.emit e).queue = s.queue ++ [e] := by
  simp [EventStream.emit, h]

/-- Folding emits never changes the closed flag. -/
theorem foldl_emit_closed (es : List Event) (s : EventStream) :
    (es.foldl EventStream.emit s).closed = s.closed := by
  induction es generalizing s with
  | nil => rfl
  | cons e rest ih => rw [List.foldl_cons, ih, emit_closed]

/-- The per-message summary emits never change the closed flag. -/
theorem foldl_summary_closed (l : List (Nat × Message)) (role : AgentRole) (s : EventStream) :
    (l.foldl (fun st p => st.emit (messageSummaryEvent role p.1 p.2)) s).closed = s.closed := by
  induction l generalizing s with
  | nil => rfl
  | cons p rest ih => rw [List.foldl_cons, ih, emit_closed]

/-- `emitMessageSummaries` never changes the closed flag. -/
theorem emitMessageSummaries_closed (s : EventStream) (role : AgentRole) (batch : List Message) :
    (emitMessageSummaries s role batch).closed = s.closed :=
  foldl_summary_closed (batch.enumFrom 1) role s

/-- Counting `RUN_STARTED` distributes over append. -/
theorem countRunStarted_append (l1 l2 : List Event) :
    countRunStarted (l1 ++ l2) = countRunStarted l1 + countRunStarted l2 :=
  List.countP_append _ l1 l2

/-- Emitting a non-`RUN_STARTED` event never changes the `RUN_STARTED` count. -/
theorem countRunStarted_emit (s : EventStream) (e : Event)
    (h : e.type ≠ EventType.RUN_STARTED) :
    countRunStarted (s.emit e).queue = countRunStarted s.queue := by
  by_cases hc : s.closed
  · simp [EventStream.emit, hc]
  · simp [emit_queue_open s e (by simpa using hc), countRunStarted_append, countRunStarted, h]

/-- Routing never changes the `RUN_STARTED` count of the stream: both audit
events are `TEXT_MESSAGE_CONTENT` events. -/
theorem routeMessageRun_countRunStarted (st : SystemState) (m : Message) :
    countRunStarted ((routeMessageRun st m).1).stream.queue
      = countRunStarted st.stream.queue := by
  cases hreg : st.registry m.target with
  | none => simp [routeMessageRun, routeOps, hreg]
  | some aid =>
      have h1 : (sentEvent m).type ≠ EventType.RUN_STARTED := by simp [sentEvent]
      have h2 : (receivedEvent m).type ≠ EventType.RUN_STARTED := by simp [receivedEvent]
      simp only [routeMessageRun, routeOps, hreg, List.foldl_cons, List.foldl_nil, applyOp]
      rw [countRunStarted_emit _ _ h2, countRunStarted_emit _ _ h1]

/-- C7: usage errors are raised synchronously and leave the session state
unchanged — a second `start()` raises the already-started error and
`drop_message` before `start()` raises the not-started error, each returning
the state untouched — while a processing error inside the actor loop is never
an exception of the session API: the loop completes normally with the
`errored` exit and the error surfaces as a `RUN_ERROR` event appended to the
stream. -/
theorem usage_errors_synchronous (ts : TeamState) (content : String) :
    (ts.started = true → teamStartRun ts = (ts, some TeamError.alreadyStarted)) ∧
    (ts.started = false → dropMessageRun ts content = (ts, some TeamError.notStarted)) ∧
    (∀ (a : AgentState) (s : EventStream) (emits : List Event) (e : String)
        (rest : List LoopInput),
      a.running = true → a.interruptQueue = [] → a.inbox ≠ [] →
      (runLoopAux a s (LoopInput.proceed emits (some e) :: rest)).2.2
          = some LoopExit.errored ∧
      (s.closed = false →
        ∃ pre, (runLoopAux a s (LoopInput.proceed emits (some e) :: rest)).2.1.queue
          = pre ++ [runErrorEvent a.role e])) := by
  refine ⟨fun h => by simp [teamStartRun, h], fun h => by simp [dropMessageRun, h], ?_⟩
  intro a s emits e rest hrun hiq hin
  have hr : ¬(a.running = false) := by simp [hrun]
  have hdb : drainBatch a = (some (flushQueue a.inbox), { a with inbox := [] }) := by
    simp [drainBatch, hiq, hin]
  refine ⟨by simp [runLoopAux, hr, hdb], ?_⟩
  intro hc
  have hq : (runLoopAux a s (LoopInput.proceed emits (some e) :: rest)).2.1
      = (emits.foldl EventStream.emit
          (emitMessageSummaries (s.emit (batchInfoEvent a.role (flushQueue a.inbox).length))
            a.role (flushQueue a.inbox))).emit (runErrorEvent a.role e) := by
    simp [runLoopAux, hr, hdb]
  have hclosed : (emits.foldl EventStream.emit
      (emitMessageSummaries (s.emit (batchInfoEvent a.role (flushQueue a.inbox).length))
        a.role (flushQueue a.inbox))).closed = false := by
    rw [foldl_emit_closed, emitMessageSummaries_closed, emit_closed]
    exact hc
  rw [hq, emit_queue_open _ _ hclosed]
  exact ⟨_, rfl⟩

/-- Closed instance of `usage_errors_synchronous`: double start, early submit,
and a failing callback on a concrete running agent. -/
theorem usage_errors_synchronous_witness :
    teamStartRun witTeamStarted = (witTeamStarted, some TeamError.alreadyStarted) ∧
    dropMessageRun witTeam "x" = (witTeam, some TeamError.notStarted) ∧
    (runLoopAux witMailbox2 EventStream.init
        [LoopInput.proceed [] (some "boom")]).2.2 = some LoopExit.errored :=
  ⟨(usage_errors_synchronous witTeamStarted "x").1 rfl,
   (usage_errors_synchronous witTeam "x").2.1 rfl,
   ((usage_errors_synchronous witTeam "x").2.2 witMailbox2 EventStream.init [] "boom" []
     rfl rfl (by decide)).1⟩

/-- After the first submission, a `drop_message` call emits no further
`RUN_STARTED` and leaves the first-message latch set, whatever else happens. -/
theorem dropMessageRun_preserves (ts : TeamState) (c : String)
    (h : ts.firstMessageSent = true) :
    countRunStarted ((dropMessageRun ts c).1).sys.stream.queue
      = countRunStarted ts.sys.stream.queue ∧
    ((dropMessageRun ts c).1).firstMessageSent = true := by
  by_cases hs : ts.started = false
  · simp [dropMessageRun, hs, h]
  · cases hlook : lookupRole ts.teamAgents AgentRole.em with
    | none => simp [dropMessageRun, hs, h, hlook]
    | some aid =>
        rcases hroute : routeMessageRun ts.sys
            { source := Identity.human HumanRole.user, target := (ts.sys.agents aid).role,
              content := c, priority := Priority.normal } with ⟨sys2, err⟩
        have hcount := routeMessageRun_countRunStarted ts.sys
            { source := Identity.human HumanRole.user, target := (ts.sys.agents aid).role,
              content := c, priority := Priority.normal }
        rw [hroute] at hcount
        cases err with
        | none => simp [dropMessageRun, hs, h, hlook, send, hroute, hcount]
        | some e => simp [dropMessageRun, hs, h, hlook, send, hroute]

/-- The first submission of a started session with an open stream adds exactly
one `RUN_STARTED` event and sets the first-message latch, whatever else
happens. -/
theorem dropMessageRun_first (ts : TeamState) (c : String) (hs : ts.started = true)
    (hf : ts.firstMessageSent = false) (ho : ts.sys.stream.closed = false) :
    countRunStarted ((dropMessageRun ts c).1).sys.stream.queue
      = countRunStarted ts.sys.stream.queue + 1 ∧
    ((dropMessageRun ts c).1).firstMessageSent = true := by
  have hs' : ¬(ts.started = false) := by simp [hs]
  have hts1 : countRunStarted (ts.sys.stream.emit (runStartedEvent c)).queue
      = countRunStarted ts.sys.stream.queue + 1 := by
    rw [emit_queue_open _ _ ho, countRunStarted_append]
    simp [countRunStarted, runStartedEvent]
  cases hlook : lookupRole ts.teamAgents AgentRole.em with
  | none => simp [dropMessageRun, hs', hf, hlook, hts1]
  | some aid =>
      rcases hroute : routeMessageRun
          { ts.sys with stream := ts.sys.stream.emit (runStartedEvent c) }
          { source := Identity.human HumanRole.user, target := (ts.sys.agents aid).role,
            content := c, priority := Priority.normal } with ⟨sys2, err⟩
      have hcount := routeMessageRun_countRunStarted
          { ts.sys with stream := ts.sys.stream.emit (runStartedEvent c) }
          { source := Identity.human HumanRole.user, target := (ts.sys.agents aid).role,
            content := c, priority := Priority.normal }
      rw [hroute] at hcount
      cases err with
      | none => simp [dropMessageRun, hs', hf, hlook, send, hroute, hcount, hts1]
      | some e => simp [dropMessageRun, hs', hf, hlook, send, hroute, hts1]

/-- Once the first-message latch is set, any sequence of further submissions
leaves the `RUN_STARTED` count unchanged. -/
theorem dropMany_preserves (cs : List String) (ts : TeamState)
    (h : ts.firstMessageSent = true) :
    countRunStarted ((dropMany ts cs).sys.stream.queue)
      = countRunStarted ts.sys.stream.queue := by
  induction cs generalizing ts with
  | nil => rfl
  | cons c rest ih =>
      have hp := dropMessageRun_preserves ts c h
      have hstep : dropMany ts (c :: rest) = dropMany ((dropMessageRun ts c).1) rest := by
        simp [dropMany]
      rw [hstep, ih _ hp.2, hp.1]

/-- C4: in a started session the first `drop_message(content)` emits exactly
one `RUN_STARTED` event with payload `{task: content}` before routing the
content as a normal-priority message from the human identity into the entry
actor's inbox; later submissions emit no further `RUN_STARTED`, so the
session's stream carries exactly one `RUN_STARTED` however many submissions
follow. -/
theorem drop_message_run_started_once (ts : TeamState) (content : String) (aid rid : Nat)
    (hstart : ts.started = true)
    (hopen : ts.sys.stream.closed = false)
    (hlook : lookupRole ts.teamAgents AgentRole.em = some aid)
    (hrole : (ts.sys.agents aid).role = AgentRole.em)
    (hreg : ts.sys.registry AgentRole.em = some rid) :
    (ts.firstMessageSent = false →
      (dropMessageRun ts content).2 = none ∧
      ((dropMessageRun ts content).1).firstMessageSent = true ∧
      ((dropMessageRun ts content).1).sys.stream.queue
        = ts.sys.stream.queue
          ++ [runStartedEvent content, sentEvent (humanMessage content),
              receivedEvent (humanMessage content)] ∧
      (runStartedEvent content).type = EventType.RUN_STARTED ∧
      (runStartedEvent content).data = EventData.taskData content ∧
      ((dropMessageRun ts content).1).sys.agents rid
        = pushMessage (ts.sys.agents rid) (humanMessage content)) ∧
    (ts.firstMessageSent = true →
      countRunStarted ((dropMessageRun ts content).1).sys.stream.queue
        = countRunStarted ts.sys.stream.queue) ∧
    (countRunStarted ts.sys.stream.queue = 0 → ts.firstMessageSent = false →
      ∀ cs : List String,
        countRunStarted ((dropMany ts (content :: cs)).sys.stream.queue) = 1) := by
  have hs' : ¬(ts.started = false) := by simp [hstart]
  refine ⟨?_, fun h => (dropMessageRun_preserves ts content h).1, ?_⟩
  · intro hf
    have hmsg : ({ source := Identity.human HumanRole.user,
                   target := (ts.sys.agents aid).role,
                   content := content,
                   priority := Priority.normal } : Message) = humanMessage content := by
      simp [humanMessage, hrole]
    refine ⟨?_, ?_, ?_, rfl, rfl, ?_⟩ <;>
      simp [dropMessageRun, hs', hf, hlook, send, hmsg, routeMessageRun, routeOps,
        humanMessage, hrole, hreg, applyOp, emit_queue_open, emit_closed, hopen,
        EventStream.emit]
  · intro hz hf cs
    have hstep : dropMany ts (content :: cs)
        = dropMany ((dropMessageRun ts content).1) cs := by
      simp [dropMany]
    have hfirst := dropMessageRun_first ts content hstart hf hopen
    rw [hstep, dropMany_preserves cs _ hfirst.2, hfirst.1, hz]

/-- Closed instance of `drop_message_run_started_once`: one then more
submissions on the concrete started team yield exactly one `RUN_STARTED`. -/
theorem drop_message_run_started_once_witness :
    (witTeamStarted.started = true ∧ countRunStarted witTeamStarted.sys.stream.queue = 0) ∧
    countRunStarted ((dropMany witTeamStarted ["hello", "again"]).sys.stream.queue) = 1 :=
  ⟨⟨rfl, rfl⟩,
    (drop_message_run_started_once witTeamStarted "hello" 0 0 rfl rfl rfl rfl rfl).2.2
      rfl rfl ["again"]⟩

/-- C8: `stop()` is idempotent — a no-op on a never-started or already-stopped
session, and stopping twice equals stopping once, so the journal is finalized
at most once — and stopping a started session with a journal finalizes it
exactly once, taking the summary status from `RUNNING` to a terminal value
(`COMPLETED` or `ERROR`) that later stops never touch again. -/
theorem stop_idempotent_finalize_once (ts : TeamState) :
    (ts.started = false → teamStop ts = ts) ∧
    teamStop (teamStop ts) = teamStop ts ∧
    (∀ j, ts.journal = some j → ts.started = true →
      ∃ jf, (teamStop ts).journal = some jf ∧
        jf.finalizeCount = j.finalizeCount + 1 ∧
        (jf.status = RunStatus.completed ∨ jf.status = RunStatus.error) ∧
        (teamStop (teamStop ts)).journal = some jf) ∧
    (ts.journal = none → (teamStop ts).journal = none) := by
  have hstop : ∀ t : TeamState, t.started = false → teamStop t = t := by
    intro t h
    simp [teamStop, h]
  have hafter : ∀ t : TeamState, (teamStop t).started = false := by
    intro t
    by_cases h : t.started = false
    · rw [hstop t h]
      exact h
    · simp [teamStop, h]
  refine ⟨hstop ts, hstop (teamStop ts) (hafter ts), ?_, ?_⟩
  · intro j hj hs
    have hs' : ¬(ts.started = false) := by simp [hs]
    refine ⟨finalizeJournal j
        (if ts.hadError then RunStatus.error else RunStatus.completed) none, ?_, rfl, ?_, ?_⟩
    · simp [teamStop, hs', hj]
    · by_cases he : ts.hadError <;> simp [finalizeJournal, he]
    · rw [hstop (teamStop ts) (hafter ts)]
      simp [teamStop, hs', hj]
  · intro hj
    by_cases h : ts.started = false
    · rw [hstop ts h]
      exact hj
    · simp [teamStop, h, hj]

/-- Closed instance of `stop_idempotent_finalize_once` on the concrete started
team with a fresh journal. -/
theorem stop_idempotent_finalize_once_witness :
    (witTeamStarted.journal = some JournalState.init ∧ witTeamStarted.started = true) ∧
    ∃ jf, (teamStop witTeamStarted).journal = some jf ∧
      jf.finalizeCount = JournalState.init.finalizeCount + 1 ∧
      (jf.status = RunStatus.completed ∨ jf.status = RunStatus.error) ∧
      (teamStop (teamStop witTeamStarted)).journal = some jf :=
  ⟨⟨rfl, rfl⟩, (stop_idempotent_finalize_once witTeamStarted).2.2.1 JournalState.init rfl rfl⟩

end AgileSwarm
